import Mathlib

/-!
Verification development for the scene-projection and device-control code of
selfdrive/ui/ui.cc.  The C++ is shallowly embedded: floating-point values are
modelled by rationals, fixed-size capnp trajectory readers by functions out of
Fin TRAJECTORY_SIZE, Qt geometry types by rational records, and the stateful
update routines by explicit state-passing functions.
-/

namespace Katsu

/-- A 3-vector of rationals, embedding the C vec3 of floats. -/
structure Vec3 where
  v0 : ℚ
  v1 : ℚ
  v2 : ℚ
deriving DecidableEq

/-- A row-major 3x3 matrix of rationals, embedding the C mat3 of floats
(component v[i*3+j] is named eij here). -/
structure Mat3 where
  e00 : ℚ
  e01 : ℚ
  e02 : ℚ
  e10 : ℚ
  e11 : ℚ
  e12 : ℚ
  e20 : ℚ
  e21 : ℚ
  e22 : ℚ
deriving DecidableEq

/-- Matrix-vector product, embedding matvecmul3 from the geometry kernel
(declared in a common header outside src/; standard row-times-vector product
per the spec's Geometry Kernel section). -/
def matvecmul3 (m : Mat3) (v : Vec3) : Vec3 :=
  ⟨m.e00 * v.v0 + m.e01 * v.v1 + m.e02 * v.v2,
   m.e10 * v.v0 + m.e11 * v.v1 + m.e12 * v.v2,
   m.e20 * v.v0 + m.e21 * v.v1 + m.e22 * v.v2⟩

/-- Matrix-matrix product, used by the calibration update (Eigen product in
the source). -/
def matmul3 (a b : Mat3) : Mat3 :=
  ⟨a.e00 * b.e00 + a.e01 * b.e10 + a.e02 * b.e20,
   a.e00 * b.e01 + a.e01 * b.e11 + a.e02 * b.e21,
   a.e00 * b.e02 + a.e01 * b.e12 + a.e02 * b.e22,
   a.e10 * b.e00 + a.e11 * b.e10 + a.e12 * b.e20,
   a.e10 * b.e01 + a.e11 * b.e11 + a.e12 * b.e21,
   a.e10 * b.e02 + a.e11 * b.e12 + a.e12 * b.e22,
   a.e20 * b.e00 + a.e21 * b.e10 + a.e22 * b.e20,
   a.e20 * b.e01 + a.e21 * b.e11 + a.e22 * b.e21,
   a.e20 * b.e02 + a.e21 * b.e12 + a.e22 * b.e22⟩

/-- A 2D point, embedding QPointF. -/
structure QPointF where
  x : ℚ
  y : ℚ
deriving DecidableEq

/-- An affine 2D transform (the car_space_transform member, built outside
src/; Qt maps a point as x * m11 + y * m21 + dx, x * m12 + y * m22 + dy in
the affine case used here). -/
structure QTransform where
  m11 : ℚ
  m12 : ℚ
  m21 : ℚ
  m22 : ℚ
  dx : ℚ
  dy : ℚ
deriving DecidableEq

/-- QTransform::map on a point (affine case). -/
def QTransform.map (t : QTransform) (p : QPointF) : QPointF :=
  ⟨t.m11 * p.x + t.m21 * p.y + t.dx, t.m12 * p.x + t.m22 * p.y + t.dy⟩

/-- A rectangle given by its top-left corner and width/height, embedding
QRectF. -/
structure QRectF where
  xp : ℚ
  yp : ℚ
  w : ℚ
  h : ℚ
deriving DecidableEq

/-- Binary minimum on the rationals (fmin on floats in the source). -/
def minQ (a b : ℚ) : ℚ := if a ≤ b then a else b

/-- Binary maximum on the rationals (fmax on floats in the source). -/
def maxQ (a b : ℚ) : ℚ := if a ≤ b then b else a

/-- QRectF::contains(QPointF): normalize the edges (Qt swaps them when the
width or height is negative) and test inclusively. -/
def QRectF.containsB (r : QRectF) (p : QPointF) : Bool :=
  decide (minQ r.xp (r.xp + r.w) ≤ p.x) && decide (p.x ≤ maxQ r.xp (r.xp + r.w)) &&
  decide (minQ r.yp (r.yp + r.h) ≤ p.y) && decide (p.y ≤ maxQ r.yp (r.yp + r.h))

/-- Modelled from the spec: the fixed trajectory horizon N (TRAJECTORY_SIZE
is defined in a header outside src/; openpilot uses 33).  The theorems below
only use that it is positive. -/
def TRAJECTORY_SIZE : ℕ := 33

/-- A cereal XYZTData reader: three equal-length sequences of fixed size
TRAJECTORY_SIZE (spec, Data Model: Trajectory). -/
structure XYZTData where
  x : Fin TRAJECTORY_SIZE → ℚ
  y : Fin TRAJECTORY_SIZE → ℚ
  z : Fin TRAJECTORY_SIZE → ℚ

/-- The mutable scene fields that the embedded routines read or write. -/
structure UIScene where
  wide_cam : Bool
  view_from_calib : Mat3
  view_from_wide_calib : Mat3
  calibration_valid : Bool
  calibration_wide_valid : Bool
  lead_vertices : Fin 2 → QPointF

/-- The UIState fields used by the projection pipeline.  The two intrinsic
matrices embed the global FCAM/ECAM_INTRINSIC_MATRIX constants (defined in a
header outside src/), carried here as state fields so that every theorem is
universally quantified over their values. -/
structure UIStateM where
  fb_w : ℚ
  fb_h : ℚ
  car_space_transform : QTransform
  fcamIntrinsic : Mat3
  ecamIntrinsic : Mat3
  scene : UIScene

/-- The clip rectangle of calib_frame_to_full_frame: the frame bounds
expanded by the fixed 500-unit margin on every side. -/
def clip_region (s : UIStateM) : QRectF :=
  ⟨-500, -500, s.fb_w + 2 * 500, s.fb_h + 2 * 500⟩

/-- The projected (pre-clipping) screen point of calib_frame_to_full_frame:
calibration rotation, intrinsic matrix, perspective divide, then the 2D
car-space transform.  Division by zero is the rational default 0 (the C++
float would produce an infinity that the clip test then rejects). -/
def full_frame_point (s : UIStateM) (in_x in_y in_z : ℚ) : QPointF :=
  let pt : Vec3 := ⟨in_x, in_y, in_z⟩
  let Ep := matvecmul3 (if s.scene.wide_cam then s.scene.view_from_wide_calib else s.scene.view_from_calib) pt
  let KEp := matvecmul3 (if s.scene.wide_cam then s.ecamIntrinsic else s.fcamIntrinsic) Ep
  QTransform.map s.car_space_transform ⟨KEp.v0 / KEp.v2, KEp.v1 / KEp.v2⟩

/-- calib_frame_to_full_frame with its C++ in-out parameter made explicit:
out is the previous contents of the pointed-to QPointF, returned unchanged
when the projection falls outside the clip region. -/
def calib_frame_to_full_frame_io (s : UIStateM) (in_x in_y in_z : ℚ) (out : QPointF) :
    Bool × QPointF :=
  let point := full_frame_point s in_x in_y in_z
  if (clip_region s).containsB point then (true, point) else (false, out)

/-- calib_frame_to_full_frame viewed as a partial projection: some point on
success, none when the point falls outside the clip region. -/
def calib_frame_to_full_frame (s : UIStateM) (in_x in_y in_z : ℚ) : Option QPointF :=
  let point := full_frame_point s in_x in_y in_z
  if (clip_region s).containsB point then some point else none

/-- The loop of get_path_length_idx: starting at index i with accumulator
max_idx, keep setting max_idx to i while i is in range and x i stays below
the height bound; the fuel argument (always at least TRAJECTORY_SIZE - i)
makes the recursion structural. -/
def get_path_length_idx_loop (line : XYZTData) (path_height : ℚ) :
    ℕ → ℕ → ℕ → ℕ
  | 0, max_idx, _ => max_idx
  | fuel + 1, max_idx, i =>
    if h : i < TRAJECTORY_SIZE then
      if line.x ⟨i, h⟩ ≤ path_height then get_path_length_idx_loop line path_height fuel i (i + 1)
      else max_idx
    else max_idx

/-- get_path_length_idx: the largest index reached by scanning from 1 while
x stays at or below path_height (0 when the scan never starts). -/
def get_path_length_idx (line : XYZTData) (path_height : ℚ) : ℕ :=
  get_path_length_idx_loop line path_height TRAJECTORY_SIZE 0 1

/-- Read of line.z at a computed index; an out-of-range index is modelled as
reading 0 (the bound theorem shows the guard always holds for indices coming
from get_path_length_idx). -/
def zAt (line : XYZTData) (idx : ℕ) : ℚ :=
  if h : idx < TRAJECTORY_SIZE then line.z ⟨idx, h⟩ else 0

/-- The inversion-suppression test of update_line_data: with lastLeft the
most recently accepted left point (none while left_points is empty), a new
left point is skipped when its y coordinate is strictly greater. -/
def inversionSkip : Option QPointF → QPointF → Bool
  | none, _ => false
  | some p, left => decide (p.y < left.y)

/-- The loop body of update_line_data over the remaining sample indices,
carrying the most recently accepted left point.  Returns the accepted left
points in acceptance order and the accepted right points in reverse
acceptance order (the source pushes right points to the front). -/
def update_line_rec (s : UIStateM) (line : XYZTData) (y_off z_off : ℚ) (allow_invert : Bool) :
    List (Fin TRAJECTORY_SIZE) → Option QPointF → List QPointF × List QPointF
  | [], _ => ([], [])
  | i :: rest, lastLeft =>
    if line.x i < 0 then update_line_rec s line y_off z_off allow_invert rest lastLeft
    else
      match calib_frame_to_full_frame s (line.x i) (line.y i - y_off) (line.z i + z_off),
            calib_frame_to_full_frame s (line.x i) (line.y i + y_off) (line.z i + z_off) with
      | some left, some right =>
        if !allow_invert && inversionSkip lastLeft left then
          update_line_rec s line y_off z_off allow_invert rest lastLeft
        else
          let res := update_line_rec s line y_off z_off allow_invert rest (some left)
          (left :: res.1, res.2 ++ [right])
      | _, _ => update_line_rec s line y_off z_off allow_invert rest lastLeft

/-- The index range 0..max_idx of the update_line_data loop (every call site
passes a max_idx below TRAJECTORY_SIZE, so capping at the horizon is
exact). -/
def idxRange (max_idx : ℕ) : List (Fin TRAJECTORY_SIZE) :=
  (List.finRange TRAJECTORY_SIZE).filter (fun i => i.val ≤ max_idx)

/-- The left-boundary points accepted by update_line_data. -/
def update_line_left (s : UIStateM) (line : XYZTData) (y_off z_off : ℚ)
    (max_idx : ℕ) (allow_invert : Bool) : List QPointF :=
  (update_line_rec s line y_off z_off allow_invert (idxRange max_idx) none).1

/-- The right-boundary points of update_line_data, already in the reversed
order in which the source stores them. -/
def update_line_right (s : UIStateM) (line : XYZTData) (y_off z_off : ℚ)
    (max_idx : ℕ) (allow_invert : Bool) : List QPointF :=
  (update_line_rec s line y_off z_off allow_invert (idxRange max_idx) none).2

/-- update_line_data: the produced polygon, left boundary forward then right
boundary backward. -/
def update_line_data (s : UIStateM) (line : XYZTData) (y_off z_off : ℚ)
    (max_idx : ℕ) (allow_invert : Bool) : List QPointF :=
  update_line_left s line y_off z_off max_idx allow_invert ++
    update_line_right s line y_off z_off max_idx allow_invert

/-- A sample index contributes two polygon points exactly when its forward
coordinate is non-negative and both offset projections land in the clip
region. -/
def valid_sample (s : UIStateM) (line : XYZTData) (y_off z_off : ℚ)
    (i : Fin TRAJECTORY_SIZE) : Bool :=
  decide (0 ≤ line.x i) &&
  (calib_frame_to_full_frame s (line.x i) (line.y i - y_off) (line.z i + z_off)).isSome &&
  (calib_frame_to_full_frame s (line.x i) (line.y i + y_off) (line.z i + z_off)).isSome

/-- A cereal RadarState lead reader: validity status, forward distance and
lateral offset. -/
structure LeadData where
  status : Bool
  dRel : ℚ
  yRel : ℚ
deriving DecidableEq

/-- The two leads of a cereal RadarState reader. -/
structure RadarState where
  leadOne : LeadData
  leadTwo : LeadData
deriving DecidableEq

/-- One iteration of the update_leads loop: when the lead status is valid,
project the lead position at the trajectory height of its distance into
lead_vertices[i]; the projection leaves the stored vertex unchanged when it
falls outside the clip region, and nothing at all is written when the status
is invalid. -/
def update_lead (s : UIStateM) (lead_data : LeadData) (line : XYZTData) (i : Fin 2) : UIStateM :=
  if lead_data.status then
    let z := zAt line (get_path_length_idx line lead_data.dRel)
    let res := calib_frame_to_full_frame_io s lead_data.dRel (-lead_data.yRel) (z + 1.22)
      (s.scene.lead_vertices i)
    { s with scene := { s.scene with
        lead_vertices := Function.update s.scene.lead_vertices i res.2 } }
  else s

/-- update_leads: the loop over the two radar leads. -/
def update_leads (s : UIStateM) (radar_state : RadarState) (line : XYZTData) : UIStateM :=
  update_lead (update_lead s radar_state.leadOne line 0) radar_state.leadTwo line 1

/-- std::clamp as used in update_model (lo below hi at every call site that
matters; the C++ order of tests is kept). -/
def clampQ (v lo hi : ℚ) : ℚ := if v < lo then lo else if hi < v then hi else v

/-- The lead-based foreshortening of the max draw distance in update_model:
lead_d is twice the lead distance, and the distance is clamped to
lead_d - fmin(lead_d * 0.35, 10) within [0, max_distance]. -/
def lead_max_distance (dRel max_distance : ℚ) : ℚ :=
  clampQ (dRel * 2 - minQ (dRel * 2 * (35 / 100)) 10) 0 max_distance

/-- Modelled from the spec: the same clamp written exactly as the spec
states it, leadDistance*2 - min(leadDistance*0.7, 10), floored at 0 and
capped at the previously computed max distance. -/
def lead_max_distance_spec (leadDistance max_distance : ℚ) : ℚ :=
  clampQ (leadDistance * 2 - minQ (leadDistance * (7 / 10)) 10) 0 max_distance

/-- The path portion of update_model: foreshorten the max draw distance when
lead one has valid status, then compute the max index of the path. -/
def update_model_path_max_idx (plan_position : XYZTData) (lead_one : LeadData)
    (max_distance : ℚ) : ℕ :=
  get_path_length_idx plan_position
    (if lead_one.status then lead_max_distance lead_one.dRel max_distance else max_distance)

/-- The cereal LiveCalibrationData status enumeration. -/
inductive CalStatus
  | uncalibrated
  | calibrated
  | recalibrating
deriving DecidableEq

/-- A cereal LiveCalibrationData reader: the two Euler-angle lists and the
calibration status. -/
structure LiveCalibration where
  rpyCalib : List ℚ
  wideFromDeviceEuler : List ℚ
  calStatus : CalStatus
deriving DecidableEq

/-- The fixed device-to-view basis rotation written literally in
update_state. -/
def view_from_device : Mat3 := ⟨0, 1, 0, 0, 0, 1, 1, 0, 0⟩

/-- Conditional read of a 3-element Euler list: the C++ declares an
uninitialized Eigen vector and assigns it only when the list has exactly 3
elements; the unspecified initial contents are the dflt parameter. -/
def vec3OfList (l : List ℚ) (dflt : Vec3) : Vec3 :=
  if l.length = 3 then ⟨l.getD 0 0, l.getD 1 0, l.getD 2 0⟩ else dflt

/-- The liveCalibration branch of update_state.  euler2rot comes from the
orientation library outside src/ and is carried as an opaque-function
parameter; rpy0 and wfde0 model the unspecified initial contents of the two
stack vectors. -/
def update_calibration (euler2rot : Vec3 → Mat3) (rpy0 wfde0 : Vec3)
    (live_calib : LiveCalibration) (scene : UIScene) : UIScene :=
  let rpy := vec3OfList live_calib.rpyCalib rpy0
  let wfde := vec3OfList live_calib.wideFromDeviceEuler wfde0
  let device_from_calib := euler2rot rpy
  let wide_from_device := euler2rot wfde
  { scene with
    view_from_calib := matmul3 view_from_device device_from_calib,
    view_from_wide_calib := matmul3 (matmul3 view_from_device wide_from_device) device_from_calib,
    calibration_valid := decide (live_calib.calStatus = CalStatus.calibrated),
    calibration_wide_valid := decide (live_calib.wideFromDeviceEuler.length = 3) }

/-- The cereal ControlsState OpenpilotState enumeration. -/
inductive OpenpilotState
  | disabled
  | preEnabled
  | enabled
  | softDisabling
  | overriding
deriving DecidableEq

/-- The ControlsState fields read by updateStatus. -/
structure ControlsState where
  state : OpenpilotState
  enabled : Bool
deriving DecidableEq

/-- The UIStatus enumeration of ui.h. -/
inductive UIStatus
  | disengaged
  | engaged
  | overrideStatus
  | lateralActive
deriving DecidableEq

/-- The UIState members touched by updateStatus. -/
structure StatusMachine where
  status : UIStatus
  started_prev : Bool
  started_frame : ℕ
deriving DecidableEq

/-- UIState::updateStatus as a state transformer.  Returns the new machine
state together with the optional argument of the emitted offroadTransition
signal (some when the signal fires). -/
def updateStatus (started always_on_lateral_active controls_updated : Bool)
    (controls_state : ControlsState) (frame : ℕ) (st : StatusMachine) :
    StatusMachine × Option Bool :=
  let st1 :=
    if started && controls_updated then
      { st with status :=
          if controls_state.state = OpenpilotState.preEnabled ∨
              controls_state.state = OpenpilotState.overriding then
            UIStatus.overrideStatus
          else if always_on_lateral_active then
            UIStatus.lateralActive
          else if controls_state.enabled then UIStatus.engaged else UIStatus.disengaged }
    else st
  if started ≠ st.started_prev ∨ frame = 1 then
    (⟨if started then UIStatus.disengaged else st1.status,
      started,
      if started then frame else st1.started_frame⟩,
     some (!started))
  else (st1, none)

/-- The transition rule that the spec states for a fresh controls-state
message while started. -/
def specStatusRule (always_on_lateral_active : Bool) (controls_state : ControlsState) : UIStatus :=
  if controls_state.state = OpenpilotState.preEnabled ∨
      controls_state.state = OpenpilotState.overriding then
    UIStatus.overrideStatus
  else if always_on_lateral_active then
    UIStatus.lateralActive
  else if controls_state.enabled then UIStatus.engaged else UIStatus.disengaged

/-- The Device members touched by updateBrightness.  futureRunning embeds
brightness_future.isRunning(): true while a dispatched asynchronous
hardware write has not completed. -/
structure BrightnessState where
  last_brightness : ℤ
  futureRunning : Bool
deriving DecidableEq

/-- The value updateBrightness compares against last_brightness: the
filtered brightness, overridden to 0 when not awake, and raised to at least
5 when the configured screen brightness is within 0..100.  The smoothing
filter lives outside src/, so its output is the filtered parameter. -/
def computed_brightness (filtered : ℤ) (awake : Bool) (screen_brightness : ℤ) : ℤ :=
  if !awake then 0
  else if screen_brightness ≤ 100 then max 5 screen_brightness
  else filtered

/-- The dispatch discipline of updateBrightness: issue the asynchronous
hardware write, and record the value, only when the computed value differs
from the last issued one and no previous write is still running.  Returns
the dispatched value (none when no write starts) and the new state; a
dispatched write marks the future as running. -/
def updateBrightness (filtered : ℤ) (awake : Bool) (screen_brightness : ℤ)
    (st : BrightnessState) : Option ℤ × BrightnessState :=
  let brightness := computed_brightness filtered awake screen_brightness
  if brightness ≠ st.last_brightness then
    if !st.futureRunning then
      (some brightness, ⟨brightness, true⟩)
    else (none, st)
  else (none, st)

/-- Completion of the outstanding asynchronous write (the background worker
finishing between ticks). -/
def futureCompletes (st : BrightnessState) : BrightnessState :=
  { st with futureRunning := false }

/-- Modelled from the spec: the fixed UI tick rate (UI_FREQ is defined in a
header outside src/; openpilot runs the UI at 20 Hz).  The wakefulness
theorems do not depend on the particular value. -/
def UI_FREQ : ℤ := 20

/-- The Device members touched by updateWakefulness. -/
structure DeviceState where
  awake : Bool
  interactive_timeout : ℤ
  ignition_on : Bool
deriving DecidableEq

/-- Device::resetInteractiveTimeout: a timeout of -1 selects 10 seconds
while ignition is on and 30 seconds while it is off, scaled by the tick
rate. -/
def resetInteractiveTimeout (st : DeviceState) (timeout : ℤ) : DeviceState :=
  { st with interactive_timeout :=
      (if timeout = -1 then (if st.ignition_on then 10 else 30) else timeout) * UI_FREQ }

/-- Device::updateWakefulness as a state transformer: detect the
ignition-off edge, reset or decrement the interactive timeout, fire the
interactiveTimeout signal exactly when the decrement reaches 0, and derive
awake.  The Bool result is whether the signal fired this tick. -/
def updateWakefulness (ignition : Bool) (screen_brightness : ℤ) (st0 : DeviceState) :
    DeviceState × Bool :=
  let ignition_just_turned_off := !ignition && st0.ignition_on
  let st1 : DeviceState := { st0 with ignition_on := ignition }
  let step : DeviceState × Bool :=
    if ignition_just_turned_off then (resetInteractiveTimeout st1 (-1), false)
    else if st1.interactive_timeout > 0 then
      ({ st1 with interactive_timeout := st1.interactive_timeout - 1 },
       st1.interactive_timeout - 1 = 0)
    else (st1, false)
  let st2 := step.1
  ({ st2 with awake :=
      if screen_brightness ≠ 0 then ignition || decide (st2.interactive_timeout > 0)
      else decide (st2.interactive_timeout > 0) },
   step.2)

/-- Iterated wakefulness ticks with a constant ignition input. -/
def runWakefulness (ignition : Bool) (screen_brightness : ℤ) :
    ℕ → DeviceState → DeviceState
  | 0, st => st
  | k + 1, st => runWakefulness ignition screen_brightness k
      (updateWakefulness ignition screen_brightness st).1

/-- The identity 3x3 matrix, used to build concrete test states. -/
def identityMat3 : Mat3 := ⟨1, 0, 0, 0, 1, 0, 0, 0, 1⟩

/-- A trajectory whose samples are all at the origin. -/
def zeroLine : XYZTData := ⟨fun _ => 0, fun _ => 0, fun _ => 0⟩

/-- A concrete scene with identity calibration and zeroed lead markers. -/
def scene0 : UIScene :=
  { wide_cam := false
    view_from_calib := identityMat3
    view_from_wide_calib := identityMat3
    calibration_valid := false
    calibration_wide_valid := false
    lead_vertices := fun _ => ⟨0, 0⟩ }

/-- A concrete UI state with a 100x100 frame, identity calibration,
identity intrinsics and the identity car-space transform. -/
def sIdy : UIStateM :=
  { fb_w := 100
    fb_h := 100
    car_space_transform := ⟨1, 0, 0, 1, 0, 0⟩
    fcamIntrinsic := identityMat3
    ecamIntrinsic := identityMat3
    scene := scene0 }

/-- A concrete UI state whose car-space transform translates every point a
million units to the right, so every projection misses the clip region. -/
def sFar : UIStateM :=
  { fb_w := 100
    fb_h := 100
    car_space_transform := ⟨1, 0, 0, 1, 1000000, 0⟩
    fcamIntrinsic := identityMat3
    ecamIntrinsic := identityMat3
    scene := scene0 }

/-- A radar tick with a valid lead one at 1 m straight ahead. -/
def radarA : RadarState := ⟨⟨true, 1, 0⟩, ⟨false, 0, 0⟩⟩

/-- A radar tick on which neither lead has valid status. -/
def radarB : RadarState := ⟨⟨false, 0, 0⟩, ⟨false, 0, 0⟩⟩

theorem get_path_length_idx_loop_lt (line : XYZTData) (path_height : ℚ) :
    ∀ (fuel max_idx i : ℕ), max_idx < TRAJECTORY_SIZE →
      get_path_length_idx_loop line path_height fuel max_idx i < TRAJECTORY_SIZE := by
  intro fuel
  induction fuel with
  | zero =>
    intro max_idx i h
    simpa [get_path_length_idx_loop] using h
  | succ n ih =>
    intro max_idx i h
    by_cases hi : i < TRAJECTORY_SIZE
    · by_cases hx : line.x ⟨i, hi⟩ ≤ path_height
      · simp only [get_path_length_idx_loop, dif_pos hi, if_pos hx]
        exact ih i (i + 1) hi
      · simpa [get_path_length_idx_loop, dif_pos hi, if_neg hx] using h
    · simpa [get_path_length_idx_loop, dif_neg hi] using h

/-- C9: for every trajectory and every non-negative path-height bound,
get_path_length_idx returns an index below TRAJECTORY_SIZE (indices being
naturals, it then lies in 0..TRAJECTORY_SIZE-1), so the z read made with it
in update_leads is an in-bounds read of one of the trajectory samples. -/
theorem get_path_length_idx_in_range (line : XYZTData) (path_height : ℚ)
    (hph : 0 ≤ path_height) :
    get_path_length_idx line path_height < TRAJECTORY_SIZE ∧
    zAt line (get_path_length_idx line path_height) ∈
      (List.finRange TRAJECTORY_SIZE).map line.z := by
  have h : get_path_length_idx line path_height < TRAJECTORY_SIZE :=
    get_path_length_idx_loop_lt line path_height TRAJECTORY_SIZE 0 1
      (by norm_num [TRAJECTORY_SIZE])
  refine ⟨h, ?_⟩
  unfold zAt
  rw [dif_pos h]
  exact List.mem_map.mpr ⟨⟨_, h⟩, List.mem_finRange _, rfl⟩

theorem get_path_length_idx_in_range_witness :
    get_path_length_idx zeroLine 0 < TRAJECTORY_SIZE :=
  (get_path_length_idx_in_range zeroLine 0 le_rfl).1

/-- C4: in update_model, when lead one has valid status the max draw
distance is clamped exactly to leadDistance*2 - min(leadDistance*0.7, 10),
floored at 0 and capped at the previously computed max distance, and the
clamped value is the one that feeds the path max-index computation. -/
theorem update_model_lead_clamp (plan_position : XYZTData) (lead_one : LeadData)
    (max_distance : ℚ) (hs : lead_one.status = true) (hm : 0 ≤ max_distance) :
    lead_max_distance lead_one.dRel max_distance =
      lead_max_distance_spec lead_one.dRel max_distance ∧
    0 ≤ lead_max_distance lead_one.dRel max_distance ∧
    lead_max_distance lead_one.dRel max_distance ≤ max_distance ∧
    update_model_path_max_idx plan_position lead_one max_distance =
      get_path_length_idx plan_position
        (lead_max_distance_spec lead_one.dRel max_distance) := by
  have harg : lead_one.dRel * 2 * (35 / 100) = lead_one.dRel * (7 / 10) := by ring
  have heq : lead_max_distance lead_one.dRel max_distance =
      lead_max_distance_spec lead_one.dRel max_distance := by
    rw [lead_max_distance, lead_max_distance_spec, harg]
  have hb : 0 ≤ lead_max_distance lead_one.dRel max_distance ∧
      lead_max_distance lead_one.dRel max_distance ≤ max_distance := by
    rw [lead_max_distance, clampQ]
    split_ifs with h1 h2
    · exact ⟨le_rfl, hm⟩
    · exact ⟨hm, le_rfl⟩
    · exact ⟨not_lt.mp h1, not_lt.mp h2⟩
  refine ⟨heq, hb.1, hb.2, ?_⟩
  rw [update_model_path_max_idx, hs, if_pos rfl, heq]

theorem update_model_lead_clamp_witness :
    lead_max_distance 5 100 ≤ 100 :=
  (update_model_lead_clamp zeroLine ⟨true, 5, 0⟩ 100 rfl (by norm_num)).2.2.1

/-- C1 counterexample: on a tick where started is true and a fresh
controlsState reporting PRE_ENABLED arrived, but the started flag just rose
(started_prev is false), the status after updateStatus is DISENGAGED, not
the OVERRIDE the claim predicts. -/
theorem updateStatus_edge_counterexample :
    (updateStatus true false true ⟨OpenpilotState.preEnabled, true⟩ 2
        ⟨UIStatus.engaged, false, 0⟩).1.status = UIStatus.disengaged ∧
    specStatusRule false ⟨OpenpilotState.preEnabled, true⟩ = UIStatus.overrideStatus ∧
    UIStatus.disengaged ≠ UIStatus.overrideStatus := by
  refine ⟨?_, ?_, ?_⟩ <;> decide

/-- C1 (amended): on every tick where started is true, a fresh controlsState
arrived, no start/stop edge happened on the same tick (started_prev already
true) and the frame is not the very first, the status after updateStatus is
OVERRIDE when the reported state is PRE_ENABLED or OVERRIDING, else
LATERAL_ACTIVE when the always-on-lateral-active flag is set, else ENGAGED
when the message reports enabled and DISENGAGED otherwise. -/
theorem updateStatus_fresh_controls (always_on_lateral_active : Bool)
    (controls_state : ControlsState) (frame : ℕ) (st : StatusMachine)
    (hprev : st.started_prev = true) (hframe : frame ≠ 1) :
    (updateStatus true always_on_lateral_active true controls_state frame st).1.status =
      specStatusRule always_on_lateral_active controls_state := by
  simp [updateStatus, specStatusRule, hprev, hframe]

theorem updateStatus_fresh_controls_witness :
    (updateStatus true false true ⟨OpenpilotState.enabled, true⟩ 2
        ⟨UIStatus.disengaged, true, 0⟩).1.status = UIStatus.engaged :=
  (updateStatus_fresh_controls false ⟨OpenpilotState.enabled, true⟩ 2
    ⟨UIStatus.disengaged, true, 0⟩ rfl (by decide)).trans (by decide)

/-- C2: a hardware brightness write is dispatched exactly when the computed
brightness differs from the last issued value and no previous write is
running; the last-issued record changes only when a write is dispatched;
while a write is running nothing is dispatched and the state is untouched,
and a value dropped that way is dispatched on a later tick once the running
write completes. -/
theorem updateBrightness_single_flight (filtered screen_brightness : ℤ) (awake : Bool)
    (st : BrightnessState) :
    ((updateBrightness filtered awake screen_brightness st).1 =
      if computed_brightness filtered awake screen_brightness ≠ st.last_brightness ∧
          st.futureRunning = false then
        some (computed_brightness filtered awake screen_brightness)
      else none) ∧
    ((updateBrightness filtered awake screen_brightness st).2.last_brightness =
      if computed_brightness filtered awake screen_brightness ≠ st.last_brightness ∧
          st.futureRunning = false then
        computed_brightness filtered awake screen_brightness
      else st.last_brightness) ∧
    (st.futureRunning = true →
      (updateBrightness filtered awake screen_brightness st).1 = none ∧
      (updateBrightness filtered awake screen_brightness st).2 = st) ∧
    (st.futureRunning = true →
      computed_brightness filtered awake screen_brightness ≠ st.last_brightness →
      (updateBrightness filtered awake screen_brightness
          (futureCompletes (updateBrightness filtered awake screen_brightness st).2)).1 =
        some (computed_brightness filtered awake screen_brightness)) := by
  obtain ⟨last, fr⟩ := st
  by_cases h : computed_brightness filtered awake screen_brightness = last
  · cases fr <;> simp [updateBrightness, futureCompletes, h]
  · cases fr <;> simp [updateBrightness, futureCompletes, h]

theorem updateBrightness_single_flight_witness :
    (updateBrightness 7 true 200
        (futureCompletes (updateBrightness 7 true 200 ⟨3, true⟩).2)).1 =
      some (computed_brightness 7 true 200) :=
  (updateBrightness_single_flight 7 200 true ⟨3, true⟩).2.2.2 rfl (by decide)

/-- C10: calib_frame_to_full_frame writes its output parameter only when it
returns true; when the projection misses the clip region it returns false
and the output parameter keeps its previous value, and when it returns true
the output is the projected point (which lies in the clip region). -/
theorem calib_frame_to_full_frame_io_frame_effect (s : UIStateM) (in_x in_y in_z : ℚ)
    (out : QPointF) :
    ((calib_frame_to_full_frame_io s in_x in_y in_z out).1 = false →
      (calib_frame_to_full_frame_io s in_x in_y in_z out).2 = out) ∧
    ((calib_frame_to_full_frame_io s in_x in_y in_z out).1 = true →
      (calib_frame_to_full_frame_io s in_x in_y in_z out).2 =
        full_frame_point s in_x in_y in_z ∧
      (clip_region s).containsB (full_frame_point s in_x in_y in_z) = true) := by
  unfold calib_frame_to_full_frame_io
  by_cases hc : (clip_region s).containsB (full_frame_point s in_x in_y in_z) = true
  · simp [hc]
  · simp [hc]

theorem calib_frame_to_full_frame_io_frame_effect_witness :
    (calib_frame_to_full_frame_io sFar 0 0 0 ⟨7, 9⟩).2 = ⟨7, 9⟩ :=
  (calib_frame_to_full_frame_io_frame_effect sFar 0 0 0 ⟨7, 9⟩).1
    (by norm_num [calib_frame_to_full_frame_io, full_frame_point, matvecmul3,
      QTransform.map, clip_region, QRectF.containsB, minQ, maxQ, sFar, scene0,
      identityMat3])

/-- C7: the calibration update never raises; a roll/pitch/yaw or wide-camera
Euler list without exactly 3 elements is simply not read, so the transforms
computed on that tick do not depend on the malformed list (they are the same
as with an empty list, i.e. built from the unspecified stack vector), and
the validity flags communicate the situation downstream:
calibration_wide_valid is set exactly when the wide list has 3 elements,
calibration_valid exactly when upstream reports CALIBRATED. -/
theorem update_calibration_malformed (euler2rot : Vec3 → Mat3) (rpy0 wfde0 : Vec3)
    (live_calib : LiveCalibration) (scene : UIScene) :
    ((update_calibration euler2rot rpy0 wfde0 live_calib scene).calibration_wide_valid =
      decide (live_calib.wideFromDeviceEuler.length = 3)) ∧
    ((update_calibration euler2rot rpy0 wfde0 live_calib scene).calibration_valid =
      decide (live_calib.calStatus = CalStatus.calibrated)) ∧
    (live_calib.rpyCalib.length ≠ 3 →
      update_calibration euler2rot rpy0 wfde0 live_calib scene =
        update_calibration euler2rot rpy0 wfde0
          { live_calib with rpyCalib := [] } scene) ∧
    (live_calib.wideFromDeviceEuler.length ≠ 3 →
      update_calibration euler2rot rpy0 wfde0 live_calib scene =
        update_calibration euler2rot rpy0 wfde0
          { live_calib with wideFromDeviceEuler := [] } scene) := by
  refine ⟨rfl, rfl, fun h => ?_, fun h => ?_⟩
  · simp [update_calibration, vec3OfList, h]
  · simp [update_calibration, vec3OfList, h]

theorem update_calibration_malformed_witness :
    update_calibration (fun v => ⟨v.v0, v.v1, v.v2, 0, 0, 0, 0, 0, 0⟩)
        ⟨1, 2, 3⟩ ⟨4, 5, 6⟩ ⟨[1, 2], [7], CalStatus.calibrated⟩ scene0 =
      update_calibration (fun v => ⟨v.v0, v.v1, v.v2, 0, 0, 0, 0, 0, 0⟩)
        ⟨1, 2, 3⟩ ⟨4, 5, 6⟩ ⟨[], [7], CalStatus.calibrated⟩ scene0 :=
  (update_calibration_malformed (fun v => ⟨v.v0, v.v1, v.v2, 0, 0, 0, 0, 0, 0⟩)
    ⟨1, 2, 3⟩ ⟨4, 5, 6⟩ ⟨[1, 2], [7], CalStatus.calibrated⟩ scene0).2.2.1 (by decide)

theorem updateWakefulness_no_edge (sb : ℤ) (st : DeviceState)
    (hig : st.ignition_on = false) :
    ((updateWakefulness false sb st).1.ignition_on = false) ∧
    ((updateWakefulness false sb st).1.interactive_timeout =
      if 0 < st.interactive_timeout then st.interactive_timeout - 1
      else st.interactive_timeout) ∧
    ((updateWakefulness false sb st).2 = decide (st.interactive_timeout = 1)) := by
  obtain ⟨aw, t, ig⟩ := st
  simp only at hig
  subst hig
  by_cases ht : 0 < t
  · refine ⟨by simp [updateWakefulness, ht], by simp [updateWakefulness, ht], ?_⟩
    have : (updateWakefulness false sb ⟨aw, t, false⟩).2 = decide (t - 1 = 0) := by
      simp [updateWakefulness, ht]
    rw [this]
    refine decide_eq_decide.mpr ?_
    show t - 1 = 0 ↔ t = 1
    omega
  · refine ⟨by simp [updateWakefulness, ht], by simp [updateWakefulness, ht], ?_⟩
    have h2 : (updateWakefulness false sb ⟨aw, t, false⟩).2 = false := by
      simp [updateWakefulness, ht]
    rw [h2]
    have : ¬ t = 1 := by omega
    simp [this]

theorem runWakefulness_countdown (sb : ℤ) :
    ∀ (k : ℕ) (st : DeviceState), st.ignition_on = false →
      0 ≤ st.interactive_timeout →
      (runWakefulness false sb k st).ignition_on = false ∧
      (runWakefulness false sb k st).interactive_timeout =
        max (st.interactive_timeout - (k : ℤ)) 0 := by
  intro k
  induction k with
  | zero =>
    intro st hig ht
    refine ⟨by simpa [runWakefulness] using hig, ?_⟩
    simp only [runWakefulness, Nat.cast_zero]
    omega
  | succ n ih =>
    intro st hig ht
    have hstep := updateWakefulness_no_edge sb st hig
    have ht1 : 0 ≤ (updateWakefulness false sb st).1.interactive_timeout := by
      rw [hstep.2.1]; split_ifs <;> omega
    have h := ih (updateWakefulness false sb st).1 hstep.1 ht1
    have hrw : runWakefulness false sb (n + 1) st =
        runWakefulness false sb n (updateWakefulness false sb st).1 := rfl
    rw [hrw]
    refine ⟨h.1, ?_⟩
    rw [h.2, hstep.2.1]
    have hcast : ((n + 1 : ℕ) : ℤ) = (n : ℤ) + 1 := by push_cast; ring
    rw [hcast]
    split_ifs <;> omega

/-- C3: after an ignition on-to-off edge the interactive timeout equals
30*UI_FREQ (nothing fires on the edge tick itself); over the following ticks
with ignition kept off the counter follows 30*UI_FREQ - k, clamped at 0 once
it has run out, and the interactiveTimeout signal fires exactly on the one
subsequent tick that takes the counter to 0. -/
theorem updateWakefulness_ignition_off_countdown (st : DeviceState) (sb : ℤ)
    (hig : st.ignition_on = true) :
    ((updateWakefulness false sb st).1.interactive_timeout = 30 * UI_FREQ) ∧
    ((updateWakefulness false sb st).2 = false) ∧
    (∀ k : ℕ,
      (runWakefulness false sb k (updateWakefulness false sb st).1).interactive_timeout =
        max (30 * UI_FREQ - (k : ℤ)) 0) ∧
    (∀ k : ℕ,
      (updateWakefulness false sb
          (runWakefulness false sb k (updateWakefulness false sb st).1)).2 =
        decide ((k : ℤ) + 1 = 30 * UI_FREQ)) := by
  obtain ⟨aw, t, ig⟩ := st
  simp only at hig
  subst hig
  have hedge : (updateWakefulness false sb ⟨aw, t, true⟩).1.interactive_timeout =
      30 * UI_FREQ := by
    simp [updateWakefulness, resetInteractiveTimeout]
  have hedgeIg : (updateWakefulness false sb ⟨aw, t, true⟩).1.ignition_on = false := by
    simp [updateWakefulness, resetInteractiveTimeout]
  have hfired0 : (updateWakefulness false sb ⟨aw, t, true⟩).2 = false := by
    simp [updateWakefulness, resetInteractiveTimeout]
  have hpos : (0 : ℤ) ≤ 30 * UI_FREQ := by norm_num [UI_FREQ]
  have hrun := fun k => runWakefulness_countdown sb k
    (updateWakefulness false sb ⟨aw, t, true⟩).1 hedgeIg (hedge ▸ hpos)
  refine ⟨hedge, hfired0, fun k => ?_, fun k => ?_⟩
  · rw [(hrun k).2, hedge]
  · have hne := updateWakefulness_no_edge sb
      (runWakefulness false sb k (updateWakefulness false sb ⟨aw, t, true⟩).1) (hrun k).1
    rw [hne.2.2, (hrun k).2, hedge]
    exact decide_eq_decide.mpr (by omega)

theorem updateWakefulness_ignition_off_countdown_witness :
    (updateWakefulness false 1 ⟨true, 5, true⟩).1.interactive_timeout = 30 * UI_FREQ :=
  (updateWakefulness_ignition_off_countdown ⟨true, 5, true⟩ 1 rfl).1

theorem update_line_rec_chain (s : UIStateM) (line : XYZTData) (y_off z_off : ℚ) :
    ∀ (idxs : List (Fin TRAJECTORY_SIZE)) (o : Option QPointF),
      List.Chain' (fun a b : QPointF => b.y ≤ a.y)
        (o.toList ++ (update_line_rec s line y_off z_off false idxs o).1) := by
  intro idxs
  induction idxs with
  | nil =>
    intro o
    cases o <;> simp [update_line_rec]
  | cons i rest ih =>
    intro o
    by_cases hx : line.x i < 0
    · simpa [update_line_rec, hx] using ih o
    · rcases hL : calib_frame_to_full_frame s (line.x i) (line.y i - y_off) (line.z i + z_off)
        with _ | left
      · simpa [update_line_rec, hx, hL] using ih o
      · rcases hR : calib_frame_to_full_frame s (line.x i) (line.y i + y_off)
            (line.z i + z_off) with _ | right
        · simpa [update_line_rec, hx, hL, hR] using ih o
        · cases o with
          | none =>
            simpa [update_line_rec, hx, hL, hR, inversionSkip] using ih (some left)
          | some p =>
            by_cases hskip : p.y < left.y
            · simpa [update_line_rec, hx, hL, hR, inversionSkip, hskip] using ih (some p)
            · have hch : List.Chain' (fun a b : QPointF => b.y ≤ a.y)
                  (left :: (update_line_rec s line y_off z_off false rest (some left)).1) := by
                simpa using ih (some left)
              have hgoal : List.Chain' (fun a b : QPointF => b.y ≤ a.y)
                  (p :: left :: (update_line_rec s line y_off z_off false rest (some left)).1) :=
                List.chain'_cons.mpr ⟨not_lt.mp hskip, hch⟩
              simpa [update_line_rec, hx, hL, hR, inversionSkip, hskip] using hgoal

/-- C5: with allow_invert false, the left-boundary points accepted by
update_line_data have non-increasing screen y in acceptance order (a sample
whose projected left y would exceed the previous accepted left y is skipped
entirely). -/
theorem update_line_left_non_increasing (s : UIStateM) (line : XYZTData)
    (y_off z_off : ℚ) (max_idx : ℕ) :
    List.Chain' (fun a b : QPointF => b.y ≤ a.y)
      (update_line_left s line y_off z_off max_idx false) := by
  have h := update_line_rec_chain s line y_off z_off (idxRange max_idx) none
  simpa [update_line_left] using h

theorem calib_some_contains {s : UIStateM} {x y z : ℚ} {p : QPointF}
    (h : calib_frame_to_full_frame s x y z = some p) :
    (clip_region s).containsB p = true := by
  simp only [calib_frame_to_full_frame] at h
  split at h
  · injection h with h2
    rw [← h2]
    assumption
  · exact absurd h (by simp)

theorem update_line_rec_length (s : UIStateM) (line : XYZTData) (y_off z_off : ℚ)
    (allow_invert : Bool) :
    ∀ (idxs : List (Fin TRAJECTORY_SIZE)) (o : Option QPointF),
      (update_line_rec s line y_off z_off allow_invert idxs o).1.length +
        (update_line_rec s line y_off z_off allow_invert idxs o).2.length ≤
        2 * idxs.countP (fun i => valid_sample s line y_off z_off i) := by
  intro idxs
  induction idxs with
  | nil => intro o; simp [update_line_rec]
  | cons i rest ih =>
    intro o
    rw [List.countP_cons]
    by_cases hx : line.x i < 0
    · simp only [update_line_rec, if_pos hx]
      have h := ih o
      split_ifs <;> omega
    · rcases hL : calib_frame_to_full_frame s (line.x i) (line.y i - y_off) (line.z i + z_off)
        with _ | left
      · simp only [update_line_rec, if_neg hx, hL]
        have h := ih o
        split_ifs <;> omega
      · rcases hR : calib_frame_to_full_frame s (line.x i) (line.y i + y_off)
            (line.z i + z_off) with _ | right
        · simp only [update_line_rec, if_neg hx, hL, hR]
          have h := ih o
          split_ifs <;> omega
        · have hv : valid_sample s line y_off z_off i = true := by
            simp [valid_sample, hL, hR, not_lt.mp hx]
          by_cases hskip : (!allow_invert && inversionSkip o left) = true
          · simp only [update_line_rec, if_neg hx, hL, hR, if_pos hskip]
            have h := ih o
            simp [hv]
            omega
          · simp only [update_line_rec, if_neg hx, hL, hR, if_neg hskip]
            have h := ih (some left)
            simp [hv]
            omega

theorem update_line_rec_clip (s : UIStateM) (line : XYZTData) (y_off z_off : ℚ)
    (allow_invert : Bool) :
    ∀ (idxs : List (Fin TRAJECTORY_SIZE)) (o : Option QPointF),
      (((update_line_rec s line y_off z_off allow_invert idxs o).1 ++
        (update_line_rec s line y_off z_off allow_invert idxs o).2).all
        (fun p => (clip_region s).containsB p)) = true := by
  intro idxs
  induction idxs with
  | nil => intro o; simp [update_line_rec]
  | cons i rest ih =>
    intro o
    by_cases hx : line.x i < 0
    · simpa [update_line_rec, hx] using ih o
    · rcases hL : calib_frame_to_full_frame s (line.x i) (line.y i - y_off) (line.z i + z_off)
        with _ | left
      · simpa [update_line_rec, hx, hL] using ih o
      · rcases hR : calib_frame_to_full_frame s (line.x i) (line.y i + y_off)
            (line.z i + z_off) with _ | right
        · simpa [update_line_rec, hx, hL, hR] using ih o
        · by_cases hskip : (!allow_invert && inversionSkip o left) = true
          · simpa [update_line_rec, hx, hL, hR, hskip] using ih o
          · have h := ih (some left)
            simp only [List.all_append, Bool.and_eq_true] at h
            simp only [update_line_rec, if_neg hx, hL, hR, if_neg hskip]
            simp [List.all_append, List.all_cons, h.1, h.2,
              calib_some_contains hL, calib_some_contains hR]

/-- C6: every point of the polygon produced by update_line_data lies inside
the clip rectangle (the frame expanded by the fixed 500-unit margin), and
the polygon has at most 2 points per sample of the index range whose forward
coordinate is non-negative and whose two offset projections both land in the
clip region. -/
theorem update_line_data_clip_and_length (s : UIStateM) (line : XYZTData)
    (y_off z_off : ℚ) (max_idx : ℕ) (allow_invert : Bool) :
    ((update_line_data s line y_off z_off max_idx allow_invert).all
      (fun p => (clip_region s).containsB p)) = true ∧
    (update_line_data s line y_off z_off max_idx allow_invert).length ≤
      2 * (idxRange max_idx).countP (fun i => valid_sample s line y_off z_off i) := by
  constructor
  · have h := update_line_rec_clip s line y_off z_off allow_invert (idxRange max_idx) none
    simpa [update_line_data, update_line_left, update_line_right] using h
  · have h := update_line_rec_length s line y_off z_off allow_invert (idxRange max_idx) none
    simpa [update_line_data, update_line_left, update_line_right,
      List.length_append] using h

/-- C8 counterexample: after a tick on which lead one was valid and its
projected point was stored, a following tick reporting invalid status leaves
that point in the scene unchanged: a marker point is still present although
the tracker no longer reports a valid lead. -/
theorem update_leads_stale_marker_counterexample :
    radarB.leadOne.status = false ∧
    (update_leads (update_leads sIdy radarA zeroLine) radarB
        zeroLine).scene.lead_vertices 0 = ⟨50 / 61, 0⟩ ∧
    ((⟨50 / 61, 0⟩ : QPointF) ≠ (⟨0, 0⟩ : QPointF)) := by
  refine ⟨rfl, ?_, by norm_num [QPointF.mk.injEq]⟩
  norm_num [update_leads, update_lead, radarA, radarB, sIdy, scene0, zeroLine,
    identityMat3, zAt, calib_frame_to_full_frame_io, full_frame_point,
    matvecmul3, QTransform.map, clip_region, QRectF.containsB, minQ, maxQ,
    Function.update_same, Function.update]

/-- C8 (amended): update_leads writes a lead marker only on ticks where that
lead has valid status (storing the in-out projection result, which keeps the
previous point when the projection misses the clip region); when the status
is invalid the marker keeps its previous value rather than being cleared. -/
theorem update_leads_write_discipline (s : UIStateM) (radar_state : RadarState)
    (line : XYZTData) :
    (radar_state.leadOne.status = false →
      (update_leads s radar_state line).scene.lead_vertices 0 =
        s.scene.lead_vertices 0) ∧
    (radar_state.leadTwo.status = false →
      (update_leads s radar_state line).scene.lead_vertices 1 =
        s.scene.lead_vertices 1) ∧
    (radar_state.leadOne.status = true →
      (update_leads s radar_state line).scene.lead_vertices 0 =
        (calib_frame_to_full_frame_io s radar_state.leadOne.dRel
          (-radar_state.leadOne.yRel)
          (zAt line (get_path_length_idx line radar_state.leadOne.dRel) + 1.22)
          (s.scene.lead_vertices 0)).2) ∧
    (radar_state.leadTwo.status = true →
      (update_leads s radar_state line).scene.lead_vertices 1 =
        (calib_frame_to_full_frame_io (update_lead s radar_state.leadOne line 0)
          radar_state.leadTwo.dRel (-radar_state.leadTwo.yRel)
          (zAt line (get_path_length_idx line radar_state.leadTwo.dRel) + 1.22)
          (s.scene.lead_vertices 1)).2) := by
  have h01 : (0 : Fin 2) ≠ 1 := by decide
  have h10 : (1 : Fin 2) ≠ 0 := by decide
  have hlv1 : (update_lead s radar_state.leadOne line 0).scene.lead_vertices 1 =
      s.scene.lead_vertices 1 := by
    cases hl1 : radar_state.leadOne.status <;>
      simp [update_lead, hl1, Function.update_noteq h10]
  refine ⟨fun h1 => ?_, fun h2 => ?_, fun h1 => ?_, fun h2 => ?_⟩
  · cases hl2 : radar_state.leadTwo.status <;>
      simp [update_leads, update_lead, h1, hl2, Function.update_noteq h01]
  · rw [update_leads, update_lead, h2, if_neg (by simp)]
    cases hl1 : radar_state.leadOne.status <;>
      simp [update_lead, hl1, Function.update_noteq h10]
  · cases hl2 : radar_state.leadTwo.status <;>
      simp [update_leads, update_lead, h1, hl2, Function.update_noteq h01,
        Function.update_same]
  · rw [update_leads, update_lead, h2, if_pos rfl]
    simp [Function.update_same, hlv1]

theorem update_leads_write_discipline_witness :
    (update_leads sIdy radarB zeroLine).scene.lead_vertices 0 =
      sIdy.scene.lead_vertices 0 :=
  (update_leads_write_discipline sIdy radarB zeroLine).1 rfl

end Katsu
